import Mathlib

/-!
# Verification of the populated-cities analytical core

A shallow embedding of the analytical core of the `populated_cities`
dashboard: the dataset loader/normalizer (`data_loader.load_data`), the
haversine geodistance (`data_loader.calculate_distance`), the population
projector, the filter engine and the City-Arena comparator (module-level
blocks of `main.py`).  Numeric dataframe cells are modelled as exact
rationals `ℚ`; the real-valued trigonometry of the distance calculation is
modelled over `ℝ`.  Missing cells (pandas `NaN`) are modelled with
`Option`.
-/

/-- A normalized city record, as produced by `load_data`
(columns `city, country, lat, lon, population, timezone`).
`timezone` is `none` when the raw cell was missing (`NaN`). -/
structure CityRecord where
  city : String
  country : String
  lat : ℚ
  lon : ℚ
  population : ℚ
  timezone : Option String
deriving DecidableEq

/-- A raw input row with the source column names
(`name, country_name, latitude, longitude, population, timezone`).
The numeric fields hold the result of `pd.to_numeric(..., errors="coerce")`:
`none` models a missing or non-numeric cell (`NaN`). -/
structure RawRecord where
  name : Option String
  country_name : Option String
  latitude : Option ℚ
  longitude : Option ℚ
  population : Option ℚ
  timezone : Option String
deriving DecidableEq

/-- Boolean descending-by-population comparison used to model
`df.sort_values(by="population", ascending=False)`. -/
def popDescLe (a b : CityRecord) : Bool := decide (b.population ≤ a.population)

/-- Embedding of `data_loader.load_data` (src/data_loader.py lines 17-45):
rename the columns, drop rows with a missing critical cell
(`dropna(subset=["lat","lon","population","city","country"])`), keep rows
with `population > 10000`, sort descending by population and keep the first
5000 rows.  `sort_values` is modelled by a stable descending sort
(`List.mergeSort` with `popDescLe`): for pandas' stable sort kinds this is
exact; the default `kind="quicksort"` leaves the relative order of tied
populations unspecified, which only affects tie order, not membership,
length or sortedness. -/
def loadData (raw : List RawRecord) : List CityRecord :=
  let renamed := raw.filterMap (fun r =>
    match r.latitude, r.longitude, r.population, r.name, r.country_name with
    | some la, some lo, some p, some ci, some co =>
        some { city := ci, country := co, lat := la, lon := lo,
               population := p, timezone := r.timezone }
    | _, _, _, _, _ => none)
  let populous := renamed.filter (fun r => decide ((10000 : ℚ) < r.population))
  (List.mergeSort populous popDescLe).take 5000

/-- Degrees-to-radians conversion (`np.radians`). -/
noncomputable def radiansOf (x : ℝ) : ℝ := x * (Real.pi / 180)

/-- The haversine intermediate value `a` of
`data_loader.calculate_distance` (src/data_loader.py line 62):
`a = sin(dlat/2)**2 + cos(lat1) * cos(lat2) * sin(dlon/2)**2`
after converting all four degree inputs to radians.  The source applies no
clamping to this value. -/
noncomputable def haversineA (lat1 lon1 lat2 lon2 : ℝ) : ℝ :=
  Real.sin ((radiansOf lat2 - radiansOf lat1) / 2) ^ 2 +
    Real.cos (radiansOf lat1) * Real.cos (radiansOf lat2) *
      Real.sin ((radiansOf lon2 - radiansOf lon1) / 2) ^ 2

/-- Embedding of `data_loader.calculate_distance`
(src/data_loader.py lines 51-65): `c = 2 * arcsin(sqrt(a))`, result
`c * r` with `r = 6371` kilometers. -/
noncomputable def calculate_distance (lat1 lon1 lat2 lon2 : ℝ) : ℝ :=
  2 * Real.arcsin (Real.sqrt (haversineA lat1 lon1 lat2 lon2)) * 6371

theorem popDescLe_trans (a b c : CityRecord) :
    popDescLe a b → popDescLe b c → popDescLe a c := by
  simp only [popDescLe, decide_eq_true_eq]
  exact fun h1 h2 => le_trans h2 h1

theorem popDescLe_total (a b : CityRecord) : popDescLe a b || popDescLe b a := by
  simp only [popDescLe, Bool.or_eq_true, decide_eq_true_eq]
  exact le_total b.population a.population

/-- The loader's output is sorted non-increasingly by population. -/
theorem loadData_pairwise (raw : List RawRecord) :
    List.Pairwise (fun a b => b.population ≤ a.population) (loadData raw) := by
  unfold loadData
  refine List.Pairwise.sublist (List.take_sublist _ _) ?_
  refine List.Pairwise.imp ?_
    (List.sorted_mergeSort popDescLe_trans popDescLe_total _)
  intro a b h
  simpa [popDescLe] using h

/-- **C5.** For every raw input dataset, the loader's output satisfies:
every record has `population > 10000`, the sequence length is at most 5000,
and the sequence is non-increasing by population. -/
theorem loadData_invariants (raw : List RawRecord) :
    (∀ r ∈ loadData raw, (10000 : ℚ) < r.population) ∧
    (loadData raw).length ≤ 5000 ∧
    List.Pairwise (fun a b => b.population ≤ a.population) (loadData raw) := by
  refine ⟨?_, ?_, loadData_pairwise raw⟩
  · intro r hr
    unfold loadData at hr
    have hmem := List.mem_of_mem_take hr
    have hmem2 := (List.mergeSort_perm _ popDescLe).mem_iff.mp hmem
    have := List.of_mem_filter hmem2
    simpa using this
  · unfold loadData
    exact List.length_take_le _ _

theorem haversineA_self (lat lon : ℝ) : haversineA lat lon lat lon = 0 := by
  simp [haversineA]

theorem haversineA_symm (lat1 lon1 lat2 lon2 : ℝ) :
    haversineA lat1 lon1 lat2 lon2 = haversineA lat2 lon2 lat1 lon1 := by
  have key : ∀ x y : ℝ, Real.sin ((x - y) / 2) ^ 2 = Real.sin ((y - x) / 2) ^ 2 := by
    intro x y
    rw [show (x - y) / 2 = -((y - x) / 2) by ring, Real.sin_neg]
    ring
  unfold haversineA
  rw [key (radiansOf lat2) (radiansOf lat1), key (radiansOf lon2) (radiansOf lon1),
    mul_comm (Real.cos (radiansOf lat1)) (Real.cos (radiansOf lat2))]

/-- **C8.** The geodistance calculator returns `0` for identical points and
is symmetric (in fact exactly, hence within the `1e-6` km tolerance the
spec allows). -/
theorem distance_identity_symmetry (lat1 lon1 lat2 lon2 : ℝ) :
    calculate_distance lat1 lon1 lat1 lon1 = 0 ∧
    calculate_distance lat1 lon1 lat2 lon2 = calculate_distance lat2 lon2 lat1 lon1 ∧
    |calculate_distance lat1 lon1 lat2 lon2 - calculate_distance lat2 lon2 lat1 lon1|
      ≤ 1 / 1000000 := by
  have hsymm : calculate_distance lat1 lon1 lat2 lon2 = calculate_distance lat2 lon2 lat1 lon1 := by
    unfold calculate_distance
    rw [haversineA_symm]
  refine ⟨?_, hsymm, ?_⟩
  · unfold calculate_distance
    rw [haversineA_self]
    simp
  · rw [hsymm, sub_self, abs_zero]
    norm_num

/-- Truncation toward zero, the semantics of pandas `astype(int)` on a
float column. -/
def truncQ (q : ℚ) : ℤ := if 0 ≤ q then ⌊q⌋ else -⌊-q⌋

/-- The annual growth rate `1.011` of the Time Machine block
(src/main.py line 89). -/
def growthRate : ℚ := 1011 / 1000

/-- Embedding of the Time Machine projection applied to one population
cell (src/main.py line 92):
`(population * growth_rate ** years_diff).astype(int)`, i.e. the
compound-growth product truncated toward zero.  `d` is
`target_year - current_year` and may be negative (decay). -/
def projectPop (pop : ℚ) (d : ℤ) : ℤ := truncQ (pop * growthRate ^ d)

/-- The in-place projection of the whole population column,
`df['population'] = (df['population'] * (growth_rate ** years_diff)).astype(int)`. -/
def projectRecords (d : ℤ) (records : List CityRecord) : List CityRecord :=
  records.map (fun r => { r with population := ((projectPop r.population d : ℤ) : ℚ) })

/-- **C4, counterexample.**  The projector truncates rather than rounds:
at population `10501` and a one-year horizon the exact product is
`10616.511`, which the code truncates to `10616` while the claimed
`round` gives `10617`. -/
theorem projectPop_not_round :
    projectPop 10501 1 = 10616 ∧
    round ((10501 : ℚ) * growthRate ^ (1 : ℤ)) = 10617 ∧
    projectPop 10501 1 ≠ round ((10501 : ℚ) * growthRate ^ (1 : ℤ)) := by
  have h1 : projectPop 10501 1 = 10616 := by
    unfold projectPop truncQ growthRate
    norm_num
  have h2 : round ((10501 : ℚ) * growthRate ^ (1 : ℤ)) = 10617 := by
    unfold growthRate
    rw [round_eq]
    norm_num
  exact ⟨h1, h2, by rw [h1, h2]; decide⟩

/-- **C4, amended.**  For every non-negative population the projector
returns `⌊population * 1.011 ^ d⌋` (truncation toward zero, which equals
the floor on non-negative values); the zero-year projection of an integer
population is the identity; `project(1_000_000, 0 years) = 1_000_000`
exactly and `project(1_000_000, 1 year) = 1_011_000` (within the claimed
±1 unit: exactly, in exact arithmetic). -/
theorem projectPop_spec (pop : ℚ) (d : ℤ) (n : ℤ) (hpop : 0 ≤ pop) :
    projectPop pop d = ⌊pop * growthRate ^ d⌋ ∧
    projectPop (n : ℚ) 0 = n ∧
    projectPop 1000000 0 = 1000000 ∧
    projectPop 1000000 1 = 1011000 := by
  have hrate : (0 : ℚ) < growthRate ^ d := by
    apply zpow_pos
    unfold growthRate
    norm_num
  refine ⟨?_, ?_, ?_, ?_⟩
  · unfold projectPop truncQ
    rw [if_pos (mul_nonneg hpop hrate.le)]
  · unfold projectPop truncQ
    rcases le_or_lt 0 (n : ℚ) with h | h
    · rw [zpow_zero, mul_one, if_pos h, Int.floor_intCast]
    · rw [zpow_zero, mul_one, if_neg (not_le.mpr h), ← Int.cast_neg, Int.floor_intCast,
        neg_neg]
  · unfold projectPop truncQ
    norm_num
  · unfold projectPop truncQ growthRate
    norm_num

/-- Witness for `projectPop_spec` at population `10501`, one year. -/
theorem projectPop_spec_witness :
    projectPop 10501 1 = ⌊(10501 : ℚ) * growthRate ^ (1 : ℤ)⌋ ∧
    projectPop ((7 : ℤ) : ℚ) 0 = 7 ∧
    projectPop 1000000 0 = 1000000 ∧
    projectPop 1000000 1 = 1011000 :=
  projectPop_spec 10501 1 7 (by norm_num)

theorem projectPop_mono (d : ℤ) {x y : ℚ} (hy : 0 ≤ y) (hxy : y ≤ x) :
    projectPop y d ≤ projectPop x d := by
  have hrate : (0 : ℚ) < growthRate ^ d := by
    apply zpow_pos
    unfold growthRate
    norm_num
  have h1 : 0 ≤ y * growthRate ^ d := mul_nonneg hy hrate.le
  have h2 : y * growthRate ^ d ≤ x * growthRate ^ d :=
    mul_le_mul_of_nonneg_right hxy hrate.le
  unfold projectPop truncQ
  rw [if_pos h1, if_pos (le_trans h1 h2)]
  exact Int.floor_le_floor h2

/-- **C9.** Projecting a dataset with non-negative, non-increasing
populations (by any number of years, growth or decay) keeps the
populations non-increasing, because `x ↦ trunc(x * f)` is monotone
non-decreasing on non-negative `x` for every `f > 0`. -/
theorem projectRecords_sorted (d : ℤ) (records : List CityRecord)
    (hpos : ∀ r ∈ records, 0 ≤ r.population)
    (hsort : List.Pairwise (fun a b => b.population ≤ a.population) records) :
    List.Pairwise (fun a b => b.population ≤ a.population)
      (projectRecords d records) := by
  unfold projectRecords
  rw [List.pairwise_map]
  refine List.Pairwise.imp_of_mem ?_ hsort
  intro a b ha hb hba
  show ((projectPop b.population d : ℤ) : ℚ) ≤ ((projectPop a.population d : ℤ) : ℚ)
  exact_mod_cast projectPop_mono d (hpos b hb) hba

/-- Witness for `projectRecords_sorted`: a concrete two-record dataset,
projected one year backwards. -/
theorem projectRecords_sorted_witness :
    List.Pairwise (fun a b => b.population ≤ a.population)
      (projectRecords (-1)
        [{ city := "Alpha", country := "X", lat := 1, lon := 2,
           population := 30000, timezone := none },
         { city := "Beta", country := "Y", lat := 3, lon := 4,
           population := 20000, timezone := none }]) :=
  projectRecords_sorted (-1) _ (by decide) (by decide)

/-- The City Arena time block's output (src/main.py lines 158-175):
`timeDiff` is the displayed absolute offset difference in hours (`none`
models the `"N/A"` sentinel that the string keeps when the `try` block
fails); `localA`/`localB` are the local wall-clock times in hours (`none`
models the `"--:--"` sentinel assigned in the `except` branch). -/
structure ArenaTimes where
  timeDiff : Option ℚ
  localA : Option ℚ
  localB : Option ℚ
deriving DecidableEq

/-- Python truthiness of a timezone cell, as tested by
`if city['timezone']` (src/main.py lines 161-162): a missing cell is a
pandas `NaN`, a float, which is truthy; a string is truthy iff it is
non-empty. -/
def pyTruthyTz : Option String → Bool
  | none => true
  | some s => decide (s ≠ "")

/-- Zone resolution of one city (src/main.py lines 161-162):
`pytz.timezone(tz) if tz else pytz.utc`.  `db` models the pytz database,
mapping a zone name to its current UTC offset in hours at the instant
under consideration (`none`: `pytz.timezone` raises, e.g.
`UnknownTimeZoneError` on an unrecognized string, or an error on a
non-string `NaN`).  A falsy cell short-circuits to UTC (offset `0`). -/
def resolveTz (db : String → Option ℚ) (tz : Option String) : Option ℚ :=
  if pyTruthyTz tz then tz.bind db else some 0

/-- The whole `try`/`except` time block of the City Arena
(src/main.py lines 159-175): if both zones resolve, the block computes
`offset_diff = offsetA - offsetB` (in hours), displays
`abs(offset_diff)` and both local times (`now` shifted by each offset);
if anything raises, `time_diff_str` keeps its `"N/A"` initial value and
both local time strings become `"--:--"`. -/
def arenaTimes (db : String → Option ℚ) (now : ℚ) (tzA tzB : Option String) :
    ArenaTimes :=
  match resolveTz db tzA, resolveTz db tzB with
  | some o1, some o2 => ⟨some |o1 - o2|, some (now + o1), some (now + o2)⟩
  | _, _ => ⟨none, none, none⟩

/-- A concrete fragment of the zone database: fixed-offset zones at
UTC+1 and UTC+3. -/
def sampleDb : String → Option ℚ := fun s =>
  if s = "Etc/GMT-1" then some 1
  else if s = "Etc/GMT-3" then some 3
  else none

/-- **C7.** Whenever both timezones resolve, the comparator's displayed
time difference is `|offsetA - offsetB|` in hours (at any instant
`now`). -/
theorem arenaTimes_diff (db : String → Option ℚ) (now oA oB : ℚ)
    (tzA tzB : Option String)
    (hA : resolveTz db tzA = some oA) (hB : resolveTz db tzB = some oB) :
    (arenaTimes db now tzA tzB).timeDiff = some |oA - oB| := by
  unfold arenaTimes
  rw [hA, hB]

/-- Witness for `arenaTimes_diff`: two cities in zones at UTC+1 and UTC+3
give a displayed time difference of exactly 2 hours. -/
theorem arenaTimes_diff_witness :
    (arenaTimes sampleDb 0 (some "Etc/GMT-1") (some "Etc/GMT-3")).timeDiff
      = some 2 := by
  rw [arenaTimes_diff sampleDb 0 1 3 (some "Etc/GMT-1") (some "Etc/GMT-3")
    (by decide) (by decide)]
  norm_num

/-- **C1, counterexample.**  A city whose timezone field is an invalid
(unrecognized) string does *not* fall back to UTC: the `except` branch
leaves the time difference at its `"N/A"` sentinel and sets both local
times to `"--:--"`, instead of the UTC-resolved result
(`timeDiff = |0 - 3| = 3`, local times `0` and `3`) that the claim
requires. -/
theorem arenaTimes_invalid_not_utc :
    arenaTimes sampleDb 0 (some "Invalid/Zone") (some "Etc/GMT-3")
      = ⟨none, none, none⟩ ∧
    arenaTimes sampleDb 0 (some "Invalid/Zone") (some "Etc/GMT-3")
      ≠ ⟨some 3, some 0, some 3⟩ := by
  have h1 : arenaTimes sampleDb 0 (some "Invalid/Zone") (some "Etc/GMT-3")
      = ⟨none, none, none⟩ := rfl
  refine ⟨h1, ?_⟩
  rw [h1]
  decide

/-- **C1, amended.**  A city whose timezone field is an *empty* (falsy)
string falls back to UTC and the comparison returns a full result; a
timezone field that is an invalid (unrecognized, non-empty) string, or a
missing cell (`NaN`, which is truthy and makes `pytz.timezone` raise),
makes zone resolution fail, and the comparison still returns — with the
time difference and both local times degraded to their `"N/A"`/`"--:--"`
sentinels — instead of propagating an error.  (The distance, computed
before the `try` block, is unaffected in every case.) -/
theorem arenaTimes_fallback (db : String → Option ℚ) (now oB : ℚ)
    (b s : String) (tzB : Option String)
    (hb : db b = some oB) (hbne : b ≠ "")
    (hs : s ≠ "") (hsdb : db s = none) :
    arenaTimes db now (some "") (some b)
      = ⟨some |0 - oB|, some (now + 0), some (now + oB)⟩ ∧
    arenaTimes db now (some s) tzB = ⟨none, none, none⟩ ∧
    arenaTimes db now none tzB = ⟨none, none, none⟩ := by
  have hA : resolveTz db (some "") = some 0 := by
    simp [resolveTz, pyTruthyTz]
  have hB : resolveTz db (some b) = some oB := by
    simp [resolveTz, pyTruthyTz, hbne, hb]
  have hS : resolveTz db (some s) = none := by
    simp [resolveTz, pyTruthyTz, hs, hsdb]
  have hN : resolveTz db none = none := by
    simp [resolveTz, pyTruthyTz]
  refine ⟨?_, ?_, ?_⟩
  · unfold arenaTimes
    rw [hA, hB]
  · unfold arenaTimes
    rw [hS]
  · unfold arenaTimes
    rw [hN]

/-- Witness for `arenaTimes_fallback` on the sample database. -/
theorem arenaTimes_fallback_witness :
    arenaTimes sampleDb 0 (some "") (some "Etc/GMT-3")
      = ⟨some |0 - (3 : ℚ)|, some ((0 : ℚ) + 0), some ((0 : ℚ) + 3)⟩ ∧
    arenaTimes sampleDb 0 (some "Invalid/Zone") (some "Etc/GMT-1")
      = ⟨none, none, none⟩ ∧
    arenaTimes sampleDb 0 none (some "Etc/GMT-1") = ⟨none, none, none⟩ :=
  arenaTimes_fallback sampleDb 0 3 "Etc/GMT-3" "Invalid/Zone"
    (some "Etc/GMT-1") (by decide) (by decide) (by decide) (by decide)

/-- Embedding of the filter block (src/main.py lines 96-103): a boolean
mask keeps records with `pop_range[0] <= population <= pop_range[1]`;
then, only when the selected-country list is non-empty
(`if selected_countries:`), a second mask keeps records whose country is
in the list.  The canonical dataset is not mutated: a new view is
returned. -/
def applyFilters (records : List CityRecord) (lo hi : ℚ) (cs : List String) :
    List CityRecord :=
  let f1 := records.filter (fun r => decide (lo ≤ r.population ∧ r.population ≤ hi))
  match cs with
  | [] => f1
  | _ :: _ => f1.filter (fun r => decide (r.country ∈ cs))

theorem applyFilters_eq_filter (records : List CityRecord) (lo hi : ℚ)
    (cs : List String) :
    applyFilters records lo hi cs
      = records.filter (fun r =>
          decide (lo ≤ r.population ∧ r.population ≤ hi ∧
            (cs = [] ∨ r.country ∈ cs))) := by
  cases cs with
  | nil =>
    unfold applyFilters
    refine List.filter_congr fun a _ => ?_
    rw [decide_eq_decide]
    simp
  | cons c cs' =>
    show List.filter (fun r => decide (r.country ∈ c :: cs'))
        (List.filter (fun r => decide (lo ≤ r.population ∧ r.population ≤ hi))
          records) = _
    rw [List.filter_filter]
    refine List.filter_congr fun a _ => ?_
    rw [← Bool.decide_and, decide_eq_decide]
    simp only [List.cons_ne_nil, false_or]
    tauto

theorem applyFilters_sublist (records : List CityRecord) (lo hi : ℚ)
    (cs : List String) :
    List.Sublist (applyFilters records lo hi cs) records := by
  rw [applyFilters_eq_filter]
  exact List.filter_sublist records

/-- **C6.** The Filter Engine returns exactly the records satisfying
`minPopulation ≤ population ≤ maxPopulation` and (`countrySet` empty or
`country ∈ countrySet`), in input order (it is the `filter` of the input,
hence a sublist); a non-empty `countrySet` matching no record yields the
empty sequence, not an error. -/
theorem applyFilters_spec (records : List CityRecord) (lo hi : ℚ)
    (cs : List String) :
    applyFilters records lo hi cs
      = records.filter (fun r =>
          decide (lo ≤ r.population ∧ r.population ≤ hi ∧
            (cs = [] ∨ r.country ∈ cs))) ∧
    List.Sublist (applyFilters records lo hi cs) records ∧
    (cs ≠ [] → (∀ r ∈ records, r.country ∉ cs) →
      applyFilters records lo hi cs = []) := by
  refine ⟨applyFilters_eq_filter records lo hi cs,
    applyFilters_sublist records lo hi cs, ?_⟩
  intro hne hnomatch
  rw [applyFilters_eq_filter]
  rw [List.filter_eq_nil_iff]
  intro a ha
  simp only [decide_eq_true_eq, not_and]
  intro _ _
  rintro (hnil | hmem)
  · exact hne hnil
  · exact hnomatch a ha hmem

/-- Witness for `applyFilters_spec`: a country set matching no record
yields the empty sequence. -/
theorem applyFilters_spec_witness :
    applyFilters
      [{ city := "Gamma", country := "X", lat := 1, lon := 2,
         population := 50000, timezone := none }] 0 100000 ["Nowhere"]
      = [] :=
  (applyFilters_spec
    [{ city := "Gamma", country := "X", lat := 1, lon := 2,
       population := 50000, timezone := none }] 0 100000 ["Nowhere"]).2.2
    (by decide) (by decide)

/-- Embedding of the contender lookup (src/main.py lines 144-145):
`filtered_df[filtered_df['city'] == name].iloc[0]`, the *first* record of
the filtered view whose `city` equals the selected name (`none` when no
record matches). -/
def lookupCity (records : List CityRecord) (name : String) : Option CityRecord :=
  (records.filter (fun r => decide (r.city = name))).head?

theorem lookupCity_max_of_sorted {records : List CityRecord} {name : String}
    {r r' : CityRecord}
    (hsort : List.Pairwise (fun a b => b.population ≤ a.population) records)
    (h : lookupCity records name = some r) (h' : r' ∈ records)
    (hn : r'.city = name) :
    r'.population ≤ r.population := by
  induction records with
  | nil => exact absurd h' (List.not_mem_nil r')
  | cons a l ih =>
    rw [List.pairwise_cons] at hsort
    obtain ⟨ha, hl⟩ := hsort
    by_cases hc : a.city = name
    · have hr : r = a := by
        rw [lookupCity, List.filter_cons_of_pos (by simpa using hc),
          List.head?_cons, Option.some.injEq] at h
        exact h.symm
      subst hr
      rcases List.mem_cons.mp h' with h'' | h''
      · exact h'' ▸ le_refl _
      · exact ha r' h''
    · have hlk : lookupCity l name = some r := by
        rw [lookupCity, List.filter_cons_of_neg (by simpa using hc)] at h
        exact h
      rcases List.mem_cons.mp h' with h'' | h''
      · exact absurd (h'' ▸ hn) hc
      · exact ih hl hlk h''

/-- **C10.** The comparator's contender lookup takes the first matching
record of the filtered dataset; since that dataset (loader output, then
filter, which preserves order) is non-increasing by population, for a name
shared by several cities the record used has the largest population among
the namesakes. -/
theorem contender_uses_largest (raw : List RawRecord) (lo hi : ℚ)
    (cs : List String) (name : String) (r r' : CityRecord)
    (h : lookupCity (applyFilters (loadData raw) lo hi cs) name = some r)
    (h' : r' ∈ applyFilters (loadData raw) lo hi cs) (hn : r'.city = name) :
    r'.population ≤ r.population :=
  lookupCity_max_of_sorted
    (List.Pairwise.sublist (applyFilters_sublist (loadData raw) lo hi cs)
      (loadData_pairwise raw)) h h' hn

/-- A concrete raw dataset with a duplicated city name, listed in
descending population order. -/
def sampleRaw : List RawRecord :=
  [{ name := some "Alpha", country_name := some "X", latitude := some 1,
     longitude := some 2, population := some 30000, timezone := none },
   { name := some "Beta", country_name := some "X", latitude := some 3,
     longitude := some 4, population := some 25000, timezone := none },
   { name := some "Alpha", country_name := some "Y", latitude := some 5,
     longitude := some 6, population := some 20000, timezone := none }]

/-- The normalized form of `sampleRaw`. -/
def sampleCities : List CityRecord :=
  [{ city := "Alpha", country := "X", lat := 1, lon := 2,
     population := 30000, timezone := none },
   { city := "Beta", country := "X", lat := 3, lon := 4,
     population := 25000, timezone := none },
   { city := "Alpha", country := "Y", lat := 5, lon := 6,
     population := 20000, timezone := none }]

theorem loadData_sampleRaw : loadData sampleRaw = sampleCities := by
  have hs : List.Pairwise (fun a b => popDescLe a b = true) sampleCities := by
    decide
  calc loadData sampleRaw
      = (List.mergeSort sampleCities popDescLe).take 5000 := rfl
    _ = sampleCities.take 5000 := by rw [List.mergeSort_of_sorted hs]
    _ = sampleCities := rfl

/-- Witness for `contender_uses_largest`: looking up the duplicated name
`"Alpha"` in the loaded-and-filtered sample uses the 30000-population
namesake, which bounds the 20000-population one. -/
theorem contender_uses_largest_witness :
    ({ city := "Alpha", country := "Y", lat := 5, lon := 6,
       population := 20000, timezone := none } : CityRecord).population
      ≤ ({ city := "Alpha", country := "X", lat := 1, lon := 2,
           population := 30000, timezone := none } : CityRecord).population :=
  contender_uses_largest sampleRaw 0 1000000 [] "Alpha" _ _
    (by rw [loadData_sampleRaw]; decide)
    (by rw [loadData_sampleRaw]; decide) rfl
